import Mathlib

/-!
Shallow embedding of the drip-sdk admin client (`src/implementations/drip-admin.ts`
together with `src/config/index.ts`).  Interactions with the blockchain runtime
(account fetches, blockhash queries, transaction broadcast) and with the system RNG
(keypair generation) are modelled by an oracle `Runtime`; every client method is a
function `Runtime → Except DripError α × Trace`, where the trace records each
external interaction performed, in order.
-/

/-- Solana public key, modelled as its 32-byte value read as a number. -/
structure PublicKey where
  n : Nat
deriving DecidableEq, Repr

/-- Key of all zero bytes (`PublicKey.default` in web3.js). -/
def PublicKey.default : PublicKey := ⟨0⟩

/-- Ed25519 keypair, modelled as its public key plus its secret seed. -/
structure Keypair where
  publicKey : PublicKey
  secretKey : Nat
deriving DecidableEq, Repr

/-- Address-like value accepted by the SDK interfaces: either a base58 string or an
already-parsed public key (anchor's `Address`). -/
inductive Address
  | str (s : String)
  | key (pk : PublicKey)
deriving DecidableEq, Repr

/-- Modelled from the spec: `toPubkey` from `src/utils` is not under `src/`; it is
the conversion of an address-like value to a `PublicKey`.  A base58 string is decoded
by the deterministic fold below; a public key passes through unchanged. -/
def toPubkey : Address → PublicKey
  | .str s => ⟨(s.data.map Char.toNat).foldl (fun a c => a * 256 + c) 0⟩
  | .key pk => pk

/-- Arbitrary-precision nonnegative integer of bn.js. -/
structure BN where
  val : Nat
deriving DecidableEq, Repr

/-- Constructor `new BN(s)` applied to a decimal string, with the string modelled as
its little-endian list of decimal digits. -/
def BN.ofDecimalDigits (ds : List Nat) : BN := ⟨Nat.ofDigits 10 ds⟩

/-- Result of `.toString()` on an unsigned integer, modelled as the little-endian
list of its decimal digits. -/
def decimalDigits (g : Nat) : List Nat := Nat.digits 10 g

/-- Modelled from the spec: the constant `ZERO` from `src/constants` is not under
`src/`; per its use as the genesis period id it is `new BN(0)`. -/
def ZERO : BN := ⟨0⟩

/-- System program id of the runtime (a fixed well-known key). -/
def SystemProgram.programId : PublicKey := ⟨1⟩

/-- Rent sysvar id of the runtime (a fixed well-known key). -/
def SYSVAR_RENT_PUBKEY : PublicKey := ⟨2⟩

/-- SPL token program id (a fixed well-known key). -/
def TOKEN_PROGRAM_ID : PublicKey := ⟨3⟩

/-- SPL associated-token program id (a fixed well-known key). -/
def ASSOCIATED_TOKEN_PROGRAM_ID : PublicKey := ⟨4⟩

/-- Cantor pairing, used to model deterministic seed-based address derivation. -/
def mixNat (a b : Nat) : Nat := (a + b) * (a + b + 1) / 2 + b

/-- Modelled from the spec: `getAssociatedTokenAddress` of `@solana/spl-token` is an
external dependency; it derives the associated token account address from the mint,
the owner and the two program ids, deterministically. -/
def getAssociatedTokenAddress (mint : PublicKey) (owner : PublicKey)
    (allowOwnerOffCurve : Bool) (tokenProgramId : PublicKey)
    (associatedTokenProgramId : PublicKey) : PublicKey :=
  ⟨mixNat (mixNat (mixNat (mixNat mint.n owner.n) (cond allowOwnerOffCurve 1 0))
      tokenProgramId.n) associatedTokenProgramId.n⟩

/-- Parameters of `initVaultProtoConfig`, fields as consumed by `drip-admin.ts`
(`src/interfaces/drip-admin/params.ts`). -/
structure InitVaultProtoConfigParams where
  granularity : Nat
  tokenADripTriggerSpread : Nat
  tokenBWithdrawalSpread : Nat
  admin : Address
deriving DecidableEq, Repr

/-- Preview object: the params spread together with a generated keypair
(`src/interfaces/drip-admin/previews.ts`). -/
structure InitVaultProtoConfigPreview extends InitVaultProtoConfigParams where
  vaultProtoConfigKeypair : Keypair
deriving DecidableEq, Repr

/-- Union type `InitVaultProtoConfigParams | InitVaultProtoConfigPreview`. -/
inductive ProtoConfigInput
  | params (p : InitVaultProtoConfigParams)
  | preview (p : InitVaultProtoConfigPreview)
deriving DecidableEq, Repr

/-- Type guard `isInitVaultProtoConfigPreview` (presence of the keypair field). -/
def isInitVaultProtoConfigPreview : ProtoConfigInput → Bool
  | .params _ => false
  | .preview _ => true

/-- Common params view of the union (the destructuring at the top of
`getInitVaultProtoConfigTx`). -/
def ProtoConfigInput.toParams : ProtoConfigInput → InitVaultProtoConfigParams
  | .params p => p
  | .preview p => p.toInitVaultProtoConfigParams

/-- Parameters of `initVault`, fields as consumed by `drip-admin.ts`. -/
structure InitVaultParams where
  protoConfig : Address
  tokenAMint : Address
  tokenBMint : Address
  tokenBFeeTreasury : Address
  maxSlippageBps : Nat
  whitelistedSwaps : List Address
deriving DecidableEq, Repr

/-- Modelled from the spec: `findVaultPubkey` from `src/helpers` is not under
`src/`; the spec states it is the deterministic derivation of the program-owned
vault address from its seeds (proto config, token A mint, token B mint) and the
program id. -/
def findVaultPubkey (programId : PublicKey) (params : InitVaultParams) : PublicKey :=
  ⟨mixNat (mixNat (mixNat programId.n (toPubkey params.protoConfig).n)
      (toPubkey params.tokenAMint).n) (toPubkey params.tokenBMint).n⟩

/-- Seeds of a vault-period address. -/
structure VaultPeriodSeeds where
  vault : PublicKey
  periodId : BN
deriving DecidableEq, Repr

/-- Modelled from the spec: `findVaultPeriodPubkey` from `src/helpers` is not under
`src/`; it is the deterministic derivation of the vault-period address from the
vault address and the period id. -/
def findVaultPeriodPubkey (programId : PublicKey) (seeds : VaultPeriodSeeds) : PublicKey :=
  ⟨mixNat (mixNat programId.n seeds.vault.n) seeds.periodId.val⟩

/-- Networks the SDK knows (`src/models`). -/
inductive Network
  | Mainnet
  | Devnet
deriving DecidableEq, Repr

/-- Token entry of a config record (`src/config/types`). -/
structure Token where
  mint : PublicKey
deriving DecidableEq, Repr

/-- Vault-proto-config entry of a config record (`src/config/types`). -/
structure VaultProtoConfig where
  pubkey : PublicKey
deriving DecidableEq, Repr

/-- Vault entry of a config record (`src/config/types`). -/
structure Vault where
  pubkey : PublicKey
deriving DecidableEq, Repr

/-- Per-network configuration (`Config` in `src/config/index.ts`); the string-keyed
records are modelled as association lists. -/
structure Config where
  vaultProgramId : PublicKey
  tokens : List (String × Token)
  vaultProtoConfigs : List (String × VaultProtoConfig)
  vaults : List (String × Vault)
deriving DecidableEq, Repr

/-- Modelled from the spec: the devnet config module `src/config/devnet` is not
under `src/`; per the source it supplies the real devnet configuration, modelled
here with a nonzero program id and nonempty records. -/
def devnet : Config :=
  { vaultProgramId := ⟨9999⟩
    tokens := [("So11111111111111111111111111111111111111112", ⟨⟨101⟩⟩)]
    vaultProtoConfigs := [("devnetProtoConfig", ⟨⟨102⟩⟩)]
    vaults := [("devnetVault", ⟨⟨103⟩⟩)] }

/-- Network-indexed config table (`Configs` in `src/config/index.ts`). -/
def Configs : Network → Config
  | .Mainnet =>
    { vaultProgramId := PublicKey.default
      tokens := []
      vaultProtoConfigs := []
      vaults := [] }
  | .Devnet => devnet

/-- Modelled from the spec: `makeExplorerUrl` from `src/utils/transaction` is not
under `src/`; it renders the explorer link for a confirmed transaction hash on the
given network. -/
def makeExplorerUrl (txHash : String) (network : Network) : String :=
  "https://explorer.solana.com/tx/" ++ txHash ++
    (match network with
     | .Mainnet => ""
     | .Devnet => "?cluster=devnet")

/-- Argument object of the `initVaultProtoConfig` instruction. -/
structure InitVaultProtoConfigArgs where
  granularity : BN
  tokenADripTriggerSpread : Nat
  tokenBWithdrawalSpread : Nat
  admin : PublicKey
deriving DecidableEq, Repr

/-- Account metas of the `initVaultProtoConfig` instruction. -/
structure InitVaultProtoConfigAccounts where
  vaultProtoConfig : PublicKey
  creator : PublicKey
  systemProgram : PublicKey
deriving DecidableEq, Repr

/-- Argument object of the `initVault` instruction. -/
structure InitVaultArgs where
  maxSlippageBps : Nat
  whitelistedSwaps : List PublicKey
deriving DecidableEq, Repr

/-- Account metas of the `initVault` instruction. -/
structure InitVaultAccounts where
  vault : PublicKey
  vaultProtoConfig : PublicKey
  tokenAAccount : PublicKey
  tokenBAccount : PublicKey
  treasuryTokenBAccount : PublicKey
  tokenAMint : PublicKey
  tokenBMint : PublicKey
  creator : PublicKey
  tokenProgram : PublicKey
  associatedTokenProgram : PublicKey
  systemProgram : PublicKey
  rent : PublicKey
deriving DecidableEq, Repr

/-- Argument object of the `initVaultPeriod` instruction. -/
structure InitVaultPeriodArgs where
  periodId : BN
deriving DecidableEq, Repr

/-- Account metas of the `initVaultPeriod` instruction. -/
structure InitVaultPeriodAccounts where
  vaultPeriod : PublicKey
  vault : PublicKey
  tokenAMint : PublicKey
  tokenBMint : PublicKey
  vaultProtoConfig : PublicKey
  creator : PublicKey
  systemProgram : PublicKey
deriving DecidableEq, Repr

/-- One instruction of the drip program as assembled by the SDK. -/
inductive Instruction
  | initVaultProtoConfig (args : InitVaultProtoConfigArgs)
      (accounts : InitVaultProtoConfigAccounts)
  | initVault (args : InitVaultArgs) (accounts : InitVaultAccounts)
  | initVaultPeriod (args : InitVaultPeriodArgs) (accounts : InitVaultPeriodAccounts)
deriving DecidableEq, Repr

/-- Client-side transaction: either the anchor method-builder output or a
`new Transaction({...})` with instructions added.  `signers` records the builder's
`.signers([...])` list. -/
structure Transaction where
  recentBlockhash : Option String
  feePayer : Option PublicKey
  instructions : List Instruction
  signers : List Keypair
deriving DecidableEq, Repr

/-- Return shape of the build methods (`src/types`). -/
structure TransactionWithMetadata (M : Type) where
  tx : Transaction
  metadata : M
deriving DecidableEq, Repr

/-- Return shape of the broadcast methods (`src/types`). -/
structure BroadcastTransactionWithMetadata (M : Type) where
  id : String
  explorer : String
  metadata : M
deriving DecidableEq, Repr

/-- Metadata carried by the proto-config build and broadcast methods. -/
structure ProtoConfigTxMetadata where
  vaultProtoConfigKeypair : Keypair
deriving DecidableEq, Repr

/-- Metadata carried by the vault build and broadcast methods. -/
structure VaultTxMetadata where
  vaultPubkey : PublicKey
deriving DecidableEq, Repr

/-- Decoded on-chain vault account, as returned by `fetchNullable`; the SDK only
inspects its presence, never its contents. -/
structure VaultAccount where
  raw : Nat
deriving DecidableEq, Repr

/-- Error raised by the external runtime (RPC/network failure), carried opaquely. -/
structure RpcError where
  message : String
deriving DecidableEq, Repr

/-- Errors that can escape the SDK methods: the SDK's own
`VaultAlreadyExistsError` carrying the derived address, or an uncaught runtime
error. -/
inductive DripError
  | VaultAlreadyExistsError (vaultPubkey : PublicKey)
  | rpc (e : RpcError)
deriving DecidableEq, Repr

/-- One observable interaction with the blockchain runtime or the system RNG. -/
inductive Event
  | fetchVault (address : PublicKey)
  | getLatestBlockhash
  | sendAndConfirm (tx : Transaction) (extraSigners : List Keypair)
  | keygen (kp : Keypair)
deriving DecidableEq, Repr

/-- Trace of external interactions, in order of occurrence. -/
abbrev Trace := List Event

/-- Oracle for the external collaborators: each field is the response the external
world returns to the corresponding request. -/
structure Runtime where
  fetchVault : PublicKey → Except RpcError (Option VaultAccount)
  latestBlockhash : Except RpcError String
  sendAndConfirm : Transaction → List Keypair → Except RpcError String
  nextKeypair : Keypair

/-- Client computation: reads the runtime oracle, returns a result or an error, and
logs the external interactions it performed, in order. -/
def DripM (α : Type) : Type := Runtime → Except DripError α × Trace

/-- Pure computation: no interaction, no error. -/
def DripM.pure (a : α) : DripM α := fun _ => (.ok a, [])

/-- Sequencing: run `x`; on success continue with `f`, on error stop (this is the
semantics of `await`/`throw` in the TypeScript source: an exception aborts the
method and propagates). -/
def DripM.bind (x : DripM α) (f : α → DripM β) : DripM β := fun rt =>
  match x rt with
  | (.ok a, t₁) =>
    let r := f a rt
    (r.1, t₁ ++ r.2)
  | (.error e, t₁) => (.error e, t₁)

/-- Raising an SDK error (`throw new ...`). -/
def DripM.throwE (e : DripError) : DripM α := fun _ => (.error e, [])

/-- Embedding of an RPC response: an external error value is carried unchanged
inside `DripError.rpc`. -/
def liftRpc (r : Except RpcError α) : Except DripError α :=
  match r with
  | .ok a => .ok a
  | .error e => .error (.rpc e)

/-- Call `this.vaultProgram.account.vault.fetchNullable(address)`. -/
def DripM.fetchVaultNullable (address : PublicKey) : DripM (Option VaultAccount) :=
  fun rt => (liftRpc (rt.fetchVault address), [.fetchVault address])

/-- Call `this.provider.connection.getLatestBlockhash()`. -/
def DripM.getLatestBlockhash : DripM String :=
  fun rt => (liftRpc rt.latestBlockhash, [.getLatestBlockhash])

/-- Call `this.provider.sendAndConfirm(tx, extraSigners)`. -/
def DripM.sendAndConfirm (tx : Transaction) (extraSigners : List Keypair) : DripM String :=
  fun rt => (liftRpc (rt.sendAndConfirm tx extraSigners), [.sendAndConfirm tx extraSigners])

/-- Call `Keypair.generate()`. -/
def DripM.generateKeypair : DripM Keypair :=
  fun rt => (.ok rt.nextKeypair, [.keygen rt.nextKeypair])

/-- Anchor provider: only its wallet public key is consulted by the embedded code
(the connection itself lives inside `Runtime`). -/
structure AnchorProvider where
  walletPublicKey : PublicKey
deriving DecidableEq, Repr

/-- The admin client.  The constructor stores the provider and network and creates
the anchor `Program` for `Configs[network].vaultProgramId`; only the program id of
that object is ever consulted, so it is kept directly. -/
structure DripAdminImpl where
  provider : AnchorProvider
  network : Network
  vaultProgramId : PublicKey
deriving DecidableEq, Repr

/-- Constructor `new DripAdminImpl(provider, network)`. -/
def DripAdminImpl.make (provider : AnchorProvider) (network : Network) : DripAdminImpl :=
  { provider := provider
    network := network
    vaultProgramId := (Configs network).vaultProgramId }

/-- Method `getInitVaultProtoConfigPreview`: generate a fresh keypair and return the
params spread together with it. -/
def DripAdminImpl.getInitVaultProtoConfigPreview (_impl : DripAdminImpl)
    (params : InitVaultProtoConfigParams) : DripM InitVaultProtoConfigPreview :=
  DripM.bind DripM.generateKeypair (fun vaultProtoConfigKeypair =>
    DripM.pure
      { toInitVaultProtoConfigParams := params
        vaultProtoConfigKeypair := vaultProtoConfigKeypair })

/-- Transaction assembled by `getInitVaultProtoConfigTx` once the keypair is fixed:
the single `initVaultProtoConfig` instruction (granularity through
`new BN(granularity.toString())`, spreads passed through, admin through `toPubkey`)
with the keypair as builder signer and the keypair as metadata. -/
def DripAdminImpl.builtProtoConfigTx (impl : DripAdminImpl)
    (p : InitVaultProtoConfigParams) (vaultProtoConfigKeypair : Keypair) :
    TransactionWithMetadata ProtoConfigTxMetadata :=
  { tx :=
      { recentBlockhash := none
        feePayer := none
        instructions :=
          [Instruction.initVaultProtoConfig
            { granularity := BN.ofDecimalDigits (decimalDigits p.granularity)
              tokenADripTriggerSpread := p.tokenADripTriggerSpread
              tokenBWithdrawalSpread := p.tokenBWithdrawalSpread
              admin := toPubkey p.admin }
            { vaultProtoConfig := vaultProtoConfigKeypair.publicKey
              creator := impl.provider.walletPublicKey
              systemProgram := SystemProgram.programId }]
        signers := [vaultProtoConfigKeypair] }
    metadata := { vaultProtoConfigKeypair := vaultProtoConfigKeypair } }

/-- Method `getInitVaultProtoConfigTx`: reuse the preview keypair when the input is
a preview (the `isInitVaultProtoConfigPreview` guard), otherwise generate a fresh
one; then assemble the single `initVaultProtoConfig` instruction with that keypair
as builder signer. -/
def DripAdminImpl.getInitVaultProtoConfigTx (impl : DripAdminImpl)
    (params : ProtoConfigInput) : DripM (TransactionWithMetadata ProtoConfigTxMetadata) :=
  let p := params.toParams
  DripM.bind
    (match params with
     | .preview pv => DripM.pure pv.vaultProtoConfigKeypair
     | .params _ => DripM.generateKeypair)
    (fun vaultProtoConfigKeypair =>
      DripM.pure (impl.builtProtoConfigTx p vaultProtoConfigKeypair))

/-- Method `initVaultProtoConfig`: build, then broadcast with the metadata keypair
as additional signer, then wrap the confirmation hash. -/
def DripAdminImpl.initVaultProtoConfig (impl : DripAdminImpl)
    (params : ProtoConfigInput) : DripM (BroadcastTransactionWithMetadata ProtoConfigTxMetadata) :=
  DripM.bind (impl.getInitVaultProtoConfigTx params) (fun r =>
    DripM.bind (DripM.sendAndConfirm r.tx [r.metadata.vaultProtoConfigKeypair]) (fun txHash =>
      DripM.pure
        { id := txHash
          explorer := makeExplorerUrl txHash impl.network
          metadata := r.metadata }))

/-- Local const `initVaultPeriodIx` of `getInitVaultTx`: the genesis
`initVaultPeriod` instruction, with `periodId = ZERO` and the derived vault-period
address. -/
def DripAdminImpl.initVaultPeriodIx (impl : DripAdminImpl)
    (params : InitVaultParams) : Instruction :=
  let vaultPubkey := findVaultPubkey impl.vaultProgramId params
  Instruction.initVaultPeriod
    { periodId := ZERO }
    { vaultPeriod :=
        findVaultPeriodPubkey impl.vaultProgramId { vault := vaultPubkey, periodId := ZERO }
      vault := vaultPubkey
      tokenAMint := toPubkey params.tokenAMint
      tokenBMint := toPubkey params.tokenBMint
      vaultProtoConfig := toPubkey params.protoConfig
      creator := impl.provider.walletPublicKey
      systemProgram := SystemProgram.programId }

/-- Local const `initVaultIx` of `getInitVaultTx`: the `initVault` instruction with
the derived vault address and the two associated token accounts. -/
def DripAdminImpl.initVaultIx (impl : DripAdminImpl)
    (params : InitVaultParams) : Instruction :=
  let vaultPubkey := findVaultPubkey impl.vaultProgramId params
  let tokenAAccount := getAssociatedTokenAddress (toPubkey params.tokenAMint)
    vaultPubkey true TOKEN_PROGRAM_ID ASSOCIATED_TOKEN_PROGRAM_ID
  let tokenBAccount := getAssociatedTokenAddress (toPubkey params.tokenBMint)
    vaultPubkey true TOKEN_PROGRAM_ID ASSOCIATED_TOKEN_PROGRAM_ID
  Instruction.initVault
    { maxSlippageBps := params.maxSlippageBps
      whitelistedSwaps := params.whitelistedSwaps.map toPubkey }
    { vault := vaultPubkey
      vaultProtoConfig := toPubkey params.protoConfig
      tokenAAccount := tokenAAccount
      tokenBAccount := tokenBAccount
      treasuryTokenBAccount := toPubkey params.tokenBFeeTreasury
      tokenAMint := toPubkey params.tokenAMint
      tokenBMint := toPubkey params.tokenBMint
      creator := impl.provider.walletPublicKey
      tokenProgram := TOKEN_PROGRAM_ID
      associatedTokenProgram := ASSOCIATED_TOKEN_PROGRAM_ID
      systemProgram := SystemProgram.programId
      rent := SYSVAR_RENT_PUBKEY }

/-- Transaction assembled by `getInitVaultTx` once the blockhash is fetched:
`initVault` then the genesis `initVaultPeriod`, wallet as fee payer, derived vault
address as metadata. -/
def DripAdminImpl.builtInitVaultTx (impl : DripAdminImpl)
    (params : InitVaultParams) (blockhash : String) :
    TransactionWithMetadata VaultTxMetadata :=
  { tx :=
      { recentBlockhash := some blockhash
        feePayer := some impl.provider.walletPublicKey
        instructions := [impl.initVaultIx params, impl.initVaultPeriodIx params]
        signers := [] }
    metadata := { vaultPubkey := findVaultPubkey impl.vaultProgramId params } }

/-- Method `getInitVaultTx`: derive the vault address, fetch the account there and
throw `VaultAlreadyExistsError` if present; otherwise assemble the `initVault` and
genesis `initVaultPeriod` instructions into one transaction with the wallet as fee
payer. -/
def DripAdminImpl.getInitVaultTx (impl : DripAdminImpl)
    (params : InitVaultParams) : DripM (TransactionWithMetadata VaultTxMetadata) :=
  let vaultPubkey := findVaultPubkey impl.vaultProgramId params
  DripM.bind (DripM.fetchVaultNullable vaultPubkey) (fun vaultAccount =>
    match vaultAccount with
    | some _ => DripM.throwE (.VaultAlreadyExistsError vaultPubkey)
    | none =>
      DripM.bind DripM.getLatestBlockhash (fun blockhash =>
        DripM.pure (impl.builtInitVaultTx params blockhash)))

/-- Method `initVault`: build (including the existence check), then broadcast, then
wrap the confirmation hash. -/
def DripAdminImpl.initVault (impl : DripAdminImpl)
    (params : InitVaultParams) : DripM (BroadcastTransactionWithMetadata VaultTxMetadata) :=
  DripM.bind (impl.getInitVaultTx params) (fun r =>
    DripM.bind (DripM.sendAndConfirm r.tx []) (fun txHash =>
      DripM.pure
        { id := txHash
          explorer := makeExplorerUrl txHash impl.network
          metadata := r.metadata }))

/-- Predicate selecting broadcast events in a trace. -/
def Event.isSend : Event → Bool
  | .sendAndConfirm _ _ => true
  | _ => false

/-- Concrete wallet used by the closed instances below. -/
def exProvider : AnchorProvider := ⟨⟨42⟩⟩

/-- Concrete client built through the constructor on devnet. -/
def exImpl : DripAdminImpl := DripAdminImpl.make exProvider Network.Devnet

/-- Concrete keypair the RNG oracle yields in the closed instances. -/
def exKeypair : Keypair := ⟨⟨77⟩, 123⟩

/-- Concrete proto-config params. -/
def exProtoParams : InitVaultProtoConfigParams := ⟨60, 5, 10, .key ⟨88⟩⟩

/-- Concrete preview carrying `exKeypair`. -/
def exPreview : InitVaultProtoConfigPreview := ⟨exProtoParams, exKeypair⟩

/-- Concrete vault params. -/
def exVaultParams : InitVaultParams :=
  ⟨.key ⟨11⟩, .key ⟨12⟩, .key ⟨13⟩, .key ⟨14⟩, 50, [.key ⟨15⟩]⟩

/-- Derived vault address of the concrete instance. -/
def exVaultAddr : PublicKey := findVaultPubkey exImpl.vaultProgramId exVaultParams

/-- Runtime oracle where the vault is absent and every request succeeds. -/
def exRuntimeOk : Runtime :=
  { fetchVault := fun _ => .ok none
    latestBlockhash := .ok "bh"
    sendAndConfirm := fun _ _ => .ok "sig"
    nextKeypair := exKeypair }

/-- Runtime oracle where the vault account already exists. -/
def exRuntimeExists : Runtime :=
  { fetchVault := fun _ => .ok (some ⟨7⟩)
    latestBlockhash := .ok "bh"
    sendAndConfirm := fun _ _ => .ok "sig"
    nextKeypair := exKeypair }

/-- Runtime oracle where the account fetch fails. -/
def exRuntimeFetchErr : Runtime :=
  { fetchVault := fun _ => .error ⟨"fetch failed"⟩
    latestBlockhash := .ok "bh"
    sendAndConfirm := fun _ _ => .ok "sig"
    nextKeypair := exKeypair }

/-- Runtime oracle where broadcast fails. -/
def exRuntimeSendErr : Runtime :=
  { fetchVault := fun _ => .ok none
    latestBlockhash := .ok "bh"
    sendAndConfirm := fun _ _ => .error ⟨"send failed"⟩
    nextKeypair := exKeypair }

/-- Unfolding lemma: the proto-config build step is pure apart from the optional
keypair generation, and always succeeds. -/
theorem protoConfigTx_run (impl : DripAdminImpl) (input : ProtoConfigInput) (rt : Runtime) :
    impl.getInitVaultProtoConfigTx input rt =
      match input with
      | .preview pv =>
        (.ok (impl.builtProtoConfigTx pv.toInitVaultProtoConfigParams pv.vaultProtoConfigKeypair), [])
      | .params p =>
        (.ok (impl.builtProtoConfigTx p rt.nextKeypair), [Event.keygen rt.nextKeypair]) := by
  cases input <;>
    simp [DripAdminImpl.getInitVaultProtoConfigTx, DripM.bind, DripM.pure,
      DripM.generateKeypair, ProtoConfigInput.toParams]

/-- Unfolding lemma: a fetch showing the vault already present makes the vault build
stop with `VaultAlreadyExistsError` right after the fetch. -/
theorem getInitVaultTx_exists_eq (impl : DripAdminImpl) (params : InitVaultParams)
    (rt : Runtime) (acc : VaultAccount)
    (h : rt.fetchVault (findVaultPubkey impl.vaultProgramId params) = .ok (some acc)) :
    impl.getInitVaultTx params rt =
      (.error (.VaultAlreadyExistsError (findVaultPubkey impl.vaultProgramId params)),
       [Event.fetchVault (findVaultPubkey impl.vaultProgramId params)]) := by
  simp [DripAdminImpl.getInitVaultTx, DripM.bind, DripM.fetchVaultNullable, liftRpc,
    DripM.throwE, h]

/-- Unfolding lemma: a failing fetch aborts the vault build with the runtime error. -/
theorem getInitVaultTx_fetch_error_eq (impl : DripAdminImpl) (params : InitVaultParams)
    (rt : Runtime) (e : RpcError)
    (h : rt.fetchVault (findVaultPubkey impl.vaultProgramId params) = .error e) :
    impl.getInitVaultTx params rt =
      (.error (.rpc e),
       [Event.fetchVault (findVaultPubkey impl.vaultProgramId params)]) := by
  simp [DripAdminImpl.getInitVaultTx, DripM.bind, DripM.fetchVaultNullable, liftRpc, h]

/-- Unfolding lemma: when the vault is absent and the blockhash query succeeds, the
vault build returns the assembled transaction after the fetch and the blockhash
query. -/
theorem getInitVaultTx_ok_eq (impl : DripAdminImpl) (params : InitVaultParams)
    (rt : Runtime) (bh : String)
    (hf : rt.fetchVault (findVaultPubkey impl.vaultProgramId params) = .ok none)
    (hb : rt.latestBlockhash = .ok bh) :
    impl.getInitVaultTx params rt =
      (.ok (impl.builtInitVaultTx params bh),
       [Event.fetchVault (findVaultPubkey impl.vaultProgramId params),
        Event.getLatestBlockhash]) := by
  simp [DripAdminImpl.getInitVaultTx, DripM.bind, DripM.fetchVaultNullable,
    DripM.getLatestBlockhash, DripM.pure, liftRpc, hf, hb]

/-- Unfolding lemma: when the vault is absent but the blockhash query fails, the
vault build aborts with the runtime error. -/
theorem getInitVaultTx_blockhash_error_eq (impl : DripAdminImpl)
    (params : InitVaultParams) (rt : Runtime) (e : RpcError)
    (hf : rt.fetchVault (findVaultPubkey impl.vaultProgramId params) = .ok none)
    (hb : rt.latestBlockhash = .error e) :
    impl.getInitVaultTx params rt =
      (.error (.rpc e),
       [Event.fetchVault (findVaultPubkey impl.vaultProgramId params),
        Event.getLatestBlockhash]) := by
  simp [DripAdminImpl.getInitVaultTx, DripM.bind, DripM.fetchVaultNullable,
    DripM.getLatestBlockhash, liftRpc, hf, hb]

/-- Characterization of a successful vault build. -/
theorem getInitVaultTx_ok_iff (impl : DripAdminImpl) (params : InitVaultParams)
    (rt : Runtime) (res : TransactionWithMetadata VaultTxMetadata) (tr : Trace) :
    impl.getInitVaultTx params rt = (.ok res, tr) ↔
      ∃ bh, rt.fetchVault (findVaultPubkey impl.vaultProgramId params) = .ok none ∧
        rt.latestBlockhash = .ok bh ∧
        res = impl.builtInitVaultTx params bh ∧
        tr = [Event.fetchVault (findVaultPubkey impl.vaultProgramId params),
              Event.getLatestBlockhash] := by
  constructor
  · intro h
    cases hf : rt.fetchVault (findVaultPubkey impl.vaultProgramId params) with
    | error e =>
      rw [getInitVaultTx_fetch_error_eq impl params rt e hf] at h
      exact absurd h (by simp)
    | ok o =>
      cases o with
      | some acc =>
        rw [getInitVaultTx_exists_eq impl params rt acc hf] at h
        exact absurd h (by simp)
      | none =>
        cases hb : rt.latestBlockhash with
        | error e =>
          rw [getInitVaultTx_blockhash_error_eq impl params rt e hf hb] at h
          exact absurd h (by simp)
        | ok bh =>
          rw [getInitVaultTx_ok_eq impl params rt bh hf hb] at h
          have h1 := congrArg Prod.fst h
          have h2 := congrArg Prod.snd h
          simp only [Prod.fst, Prod.snd] at h1 h2
          have h3 : impl.builtInitVaultTx params bh = res := by
            injection h1
          exact ⟨bh, rfl, rfl, h3.symm, h2.symm⟩
  · rintro ⟨bh, hf, hb, hres, htr⟩
    rw [hres, htr, getInitVaultTx_ok_eq impl params rt bh hf hb]

/-- Unfolding lemma: `initVault` runs the build step, then broadcasts its
transaction with no extra signers; an error from either phase is returned as is. -/
theorem initVault_run (impl : DripAdminImpl) (params : InitVaultParams) (rt : Runtime) :
    impl.initVault params rt =
      match impl.getInitVaultTx params rt with
      | (.ok r, t) =>
        match rt.sendAndConfirm r.tx [] with
        | .ok h =>
          (.ok { id := h, explorer := makeExplorerUrl h impl.network, metadata := r.metadata },
           t ++ [Event.sendAndConfirm r.tx []])
        | .error e => (.error (.rpc e), t ++ [Event.sendAndConfirm r.tx []])
      | (.error e, t) => (.error e, t) := by
  rcases hg : impl.getInitVaultTx params rt with ⟨r, t⟩
  cases r with
  | ok r =>
    cases hs : rt.sendAndConfirm r.tx [] with
    | ok h =>
      simp [DripAdminImpl.initVault, DripM.bind, DripM.sendAndConfirm, DripM.pure,
        liftRpc, hg, hs]
    | error e =>
      simp [DripAdminImpl.initVault, DripM.bind, DripM.sendAndConfirm, liftRpc, hg, hs]
  | error e => simp [DripAdminImpl.initVault, DripM.bind, hg]

/-- Unfolding lemma: `initVaultProtoConfig` runs the build step, then broadcasts its
transaction with the metadata keypair as extra signer; an error from either phase is
returned as is. -/
theorem initVaultProtoConfig_run (impl : DripAdminImpl) (input : ProtoConfigInput)
    (rt : Runtime) :
    impl.initVaultProtoConfig input rt =
      match impl.getInitVaultProtoConfigTx input rt with
      | (.ok r, t) =>
        match rt.sendAndConfirm r.tx [r.metadata.vaultProtoConfigKeypair] with
        | .ok h =>
          (.ok { id := h, explorer := makeExplorerUrl h impl.network, metadata := r.metadata },
           t ++ [Event.sendAndConfirm r.tx [r.metadata.vaultProtoConfigKeypair]])
        | .error e =>
          (.error (.rpc e), t ++ [Event.sendAndConfirm r.tx [r.metadata.vaultProtoConfigKeypair]])
      | (.error e, t) => (.error e, t) := by
  rcases hg : impl.getInitVaultProtoConfigTx input rt with ⟨r, t⟩
  cases r with
  | ok r =>
    cases hs : rt.sendAndConfirm r.tx [r.metadata.vaultProtoConfigKeypair] with
    | ok h =>
      simp [DripAdminImpl.initVaultProtoConfig, DripM.bind, DripM.sendAndConfirm,
        DripM.pure, liftRpc, hg, hs]
    | error e =>
      simp [DripAdminImpl.initVaultProtoConfig, DripM.bind, DripM.sendAndConfirm,
        liftRpc, hg, hs]
  | error e => simp [DripAdminImpl.initVaultProtoConfig, DripM.bind, hg]

/-- Trace shape of the vault build: the fetch alone, or the fetch followed by the
blockhash query; never a broadcast. -/
theorem getInitVaultTx_trace_cases (impl : DripAdminImpl) (params : InitVaultParams)
    (rt : Runtime) :
    (impl.getInitVaultTx params rt).2 =
        [Event.fetchVault (findVaultPubkey impl.vaultProgramId params)] ∨
    (impl.getInitVaultTx params rt).2 =
        [Event.fetchVault (findVaultPubkey impl.vaultProgramId params),
         Event.getLatestBlockhash] := by
  cases hf : rt.fetchVault (findVaultPubkey impl.vaultProgramId params) with
  | error e => left; rw [getInitVaultTx_fetch_error_eq impl params rt e hf]
  | ok o =>
    cases o with
    | some acc => left; rw [getInitVaultTx_exists_eq impl params rt acc hf]
    | none =>
      cases hb : rt.latestBlockhash with
      | error e => right; rw [getInitVaultTx_blockhash_error_eq impl params rt e hf hb]
      | ok bh => right; rw [getInitVaultTx_ok_eq impl params rt bh hf hb]

/-- The vault build never broadcasts. -/
theorem getInitVaultTx_trace_no_send (impl : DripAdminImpl) (params : InitVaultParams)
    (rt : Runtime) :
    List.countP Event.isSend (impl.getInitVaultTx params rt).2 = 0 := by
  rcases getInitVaultTx_trace_cases impl params rt with h | h <;> rw [h] <;> rfl

/-- The proto-config build never broadcasts. -/
theorem protoConfigTx_trace_no_send (impl : DripAdminImpl) (input : ProtoConfigInput)
    (rt : Runtime) :
    List.countP Event.isSend (impl.getInitVaultProtoConfigTx input rt).2 = 0 := by
  cases input <;> rw [protoConfigTx_run] <;> rfl

/-- `initVault` broadcasts at most once (no retry). -/
theorem initVault_send_count (impl : DripAdminImpl) (params : InitVaultParams)
    (rt : Runtime) :
    List.countP Event.isSend (impl.initVault params rt).2 ≤ 1 := by
  have h0 := getInitVaultTx_trace_no_send impl params rt
  rw [initVault_run]
  rcases hg : impl.getInitVaultTx params rt with ⟨r, t⟩
  rw [hg] at h0
  cases r with
  | ok r =>
    cases hs : rt.sendAndConfirm r.tx [] <;>
      simp_all [List.countP_append, List.countP_cons, Event.isSend]
  | error e => simp [hg, h0]

/-- `initVaultProtoConfig` broadcasts at most once (no retry). -/
theorem initVaultProtoConfig_send_count (impl : DripAdminImpl)
    (input : ProtoConfigInput) (rt : Runtime) :
    List.countP Event.isSend (impl.initVaultProtoConfig input rt).2 ≤ 1 := by
  have h0 := protoConfigTx_trace_no_send impl input rt
  rw [initVaultProtoConfig_run]
  rcases hg : impl.getInitVaultProtoConfigTx input rt with ⟨r, t⟩
  rw [hg] at h0
  cases r with
  | ok r =>
    cases hs : rt.sendAndConfirm r.tx [r.metadata.vaultProtoConfigKeypair] <;>
      simp_all [List.countP_append, List.countP_cons, Event.isSend]
  | error e => simp [hg, h0]

/-- C1: for every `InitVaultParams`, `getInitVaultTx` first fetches the vault
account at the derived vault address; if that account already exists it throws
`VaultAlreadyExistsError` carrying that address and builds no transaction (the run
stops right after the fetch), and only if the account is absent does it proceed to
build the init-vault transaction. -/
theorem getInitVaultTx_fetch_before_create (impl : DripAdminImpl)
    (params : InitVaultParams) (rt : Runtime) :
    ((∃ acc, rt.fetchVault (findVaultPubkey impl.vaultProgramId params) = .ok (some acc)) →
      impl.getInitVaultTx params rt =
        (.error (.VaultAlreadyExistsError (findVaultPubkey impl.vaultProgramId params)),
         [Event.fetchVault (findVaultPubkey impl.vaultProgramId params)]))
    ∧ (∀ res tr, impl.getInitVaultTx params rt = (.ok res, tr) →
        rt.fetchVault (findVaultPubkey impl.vaultProgramId params) = .ok none)
    ∧ (impl.getInitVaultTx params rt).2.head? =
        some (Event.fetchVault (findVaultPubkey impl.vaultProgramId params)) := by
  refine ⟨?_, ?_, ?_⟩
  · rintro ⟨acc, h⟩
    exact getInitVaultTx_exists_eq impl params rt acc h
  · intro res tr h
    rcases (getInitVaultTx_ok_iff impl params rt res tr).1 h with ⟨bh, hf, -, -, -⟩
    exact hf
  · rcases getInitVaultTx_trace_cases impl params rt with h | h <;> rw [h] <;> rfl

/-- Closed instance of C1 at a concrete client, params and runtimes. -/
theorem getInitVaultTx_fetch_before_create_witness :
    exImpl.getInitVaultTx exVaultParams exRuntimeExists =
      (.error (.VaultAlreadyExistsError exVaultAddr), [Event.fetchVault exVaultAddr]) ∧
    exRuntimeOk.fetchVault exVaultAddr = .ok none :=
  ⟨(getInitVaultTx_fetch_before_create exImpl exVaultParams exRuntimeExists).1 ⟨⟨7⟩, rfl⟩,
   (getInitVaultTx_fetch_before_create exImpl exVaultParams exRuntimeOk).2.1
     (exImpl.builtInitVaultTx exVaultParams "bh")
     [Event.fetchVault exVaultAddr, Event.getLatestBlockhash] rfl⟩

/-- C2: on a preview input, `getInitVaultProtoConfigTx` uses exactly the keypair
carried in the preview and generates no new one: the `vaultProtoConfig` account of
the built instruction is the preview keypair's public key, that keypair is a signer
of the transaction, the returned metadata carries the preview's keypair, and the
run performs no keypair generation. -/
theorem getInitVaultProtoConfigTx_uses_preview_keypair (impl : DripAdminImpl)
    (pv : InitVaultProtoConfigPreview) (rt : Runtime) :
    ∃ res, impl.getInitVaultProtoConfigTx (.preview pv) rt = (.ok res, []) ∧
      (∃ args accs, res.tx.instructions = [Instruction.initVaultProtoConfig args accs] ∧
        accs.vaultProtoConfig = pv.vaultProtoConfigKeypair.publicKey) ∧
      pv.vaultProtoConfigKeypair ∈ res.tx.signers ∧
      res.metadata.vaultProtoConfigKeypair = pv.vaultProtoConfigKeypair ∧
      ∀ k, Event.keygen k ∉ (impl.getInitVaultProtoConfigTx (.preview pv) rt).2 := by
  refine ⟨impl.builtProtoConfigTx pv.toInitVaultProtoConfigParams pv.vaultProtoConfigKeypair,
    protoConfigTx_run impl (.preview pv) rt, ⟨_, _, rfl, rfl⟩, ?_, rfl, ?_⟩
  · simp [DripAdminImpl.builtProtoConfigTx]
  · intro k
    rw [protoConfigTx_run impl (.preview pv) rt]
    simp

/-- Closed instance of C2 at a concrete client and preview. -/
theorem getInitVaultProtoConfigTx_uses_preview_keypair_witness :
    ∃ res, exImpl.getInitVaultProtoConfigTx (.preview exPreview) exRuntimeOk = (.ok res, []) ∧
      (∃ args accs, res.tx.instructions = [Instruction.initVaultProtoConfig args accs] ∧
        accs.vaultProtoConfig = exKeypair.publicKey) ∧
      exKeypair ∈ res.tx.signers ∧
      res.metadata.vaultProtoConfigKeypair = exKeypair ∧
      ∀ k, Event.keygen k ∉ (exImpl.getInitVaultProtoConfigTx (.preview exPreview) exRuntimeOk).2 :=
  getInitVaultProtoConfigTx_uses_preview_keypair exImpl exPreview exRuntimeOk

/-- C4: `initVault` submits a transaction only after the account-state precondition
check passes: if the vault account already exists, it terminates with
`VaultAlreadyExistsError` and no broadcast event ever occurs. -/
theorem initVault_no_send_when_vault_exists (impl : DripAdminImpl)
    (params : InitVaultParams) (rt : Runtime) (acc : VaultAccount)
    (h : rt.fetchVault (findVaultPubkey impl.vaultProgramId params) = .ok (some acc)) :
    impl.initVault params rt =
      (.error (.VaultAlreadyExistsError (findVaultPubkey impl.vaultProgramId params)),
       [Event.fetchVault (findVaultPubkey impl.vaultProgramId params)])
    ∧ ∀ tx s, Event.sendAndConfirm tx s ∉ (impl.initVault params rt).2 := by
  have hg := getInitVaultTx_exists_eq impl params rt acc h
  have hrun : impl.initVault params rt =
      (.error (.VaultAlreadyExistsError (findVaultPubkey impl.vaultProgramId params)),
       [Event.fetchVault (findVaultPubkey impl.vaultProgramId params)]) := by
    rw [initVault_run, hg]
  refine ⟨hrun, ?_⟩
  intro tx s
  rw [hrun]
  simp

/-- Closed instance of C4 at a concrete client, params and runtime. -/
theorem initVault_no_send_when_vault_exists_witness :
    (exImpl.initVault exVaultParams exRuntimeExists =
      (.error (.VaultAlreadyExistsError exVaultAddr), [Event.fetchVault exVaultAddr]))
    ∧ ∀ tx s, Event.sendAndConfirm tx s ∉ (exImpl.initVault exVaultParams exRuntimeExists).2 :=
  initVault_no_send_when_vault_exists exImpl exVaultParams exRuntimeExists ⟨7⟩ rfl

/-- C3: vault and vault-period address derivation is deterministic (two evaluations
agree), and the `metadata.vaultPubkey` returned by `getInitVaultTx` is a function of
the program id and the params only: it equals `findVaultPubkey`, so two successful
runs with equal program ids but arbitrary providers, networks and runtimes agree. -/
theorem vault_address_derivation_deterministic :
    (∀ programId params, findVaultPubkey programId params = findVaultPubkey programId params)
    ∧ (∀ programId seeds,
        findVaultPeriodPubkey programId seeds = findVaultPeriodPubkey programId seeds)
    ∧ (∀ (impl : DripAdminImpl) params (rt : Runtime) res tr,
        impl.getInitVaultTx params rt = (.ok res, tr) →
        res.metadata.vaultPubkey = findVaultPubkey impl.vaultProgramId params)
    ∧ (∀ (impl₁ impl₂ : DripAdminImpl) params (rt₁ rt₂ : Runtime) res₁ res₂ tr₁ tr₂,
        impl₁.vaultProgramId = impl₂.vaultProgramId →
        impl₁.getInitVaultTx params rt₁ = (.ok res₁, tr₁) →
        impl₂.getInitVaultTx params rt₂ = (.ok res₂, tr₂) →
        res₁.metadata.vaultPubkey = res₂.metadata.vaultPubkey) := by
  have key : ∀ (impl : DripAdminImpl) params (rt : Runtime) res tr,
      impl.getInitVaultTx params rt = (.ok res, tr) →
      res.metadata.vaultPubkey = findVaultPubkey impl.vaultProgramId params := by
    intro impl params rt res tr h
    rcases (getInitVaultTx_ok_iff impl params rt res tr).1 h with ⟨bh, -, -, hres, -⟩
    rw [hres]
    rfl
  refine ⟨fun _ _ => rfl, fun _ _ => rfl, key, ?_⟩
  intro impl₁ impl₂ params rt₁ rt₂ res₁ res₂ tr₁ tr₂ hpid h₁ h₂
  rw [key impl₁ params rt₁ res₁ tr₁ h₁, key impl₂ params rt₂ res₂ tr₂ h₂, hpid]

/-- Closed instance of C3 at a concrete client, params and runtime. -/
theorem vault_address_derivation_deterministic_witness :
    (exImpl.builtInitVaultTx exVaultParams "bh").metadata.vaultPubkey =
      findVaultPubkey exImpl.vaultProgramId exVaultParams :=
  vault_address_derivation_deterministic.2.2.1 exImpl exVaultParams exRuntimeOk
    (exImpl.builtInitVaultTx exVaultParams "bh")
    [Event.fetchVault exVaultAddr, Event.getLatestBlockhash] rfl

/-- C5: `initVaultProtoConfig` broadcasts exactly the transaction built by
`getInitVaultProtoConfigTx` on its input, with the metadata keypair as additional
signer, and returns the confirmation hash as `id`, `makeExplorerUrl` of that hash
and the instance's network as `explorer`, and the build metadata unchanged;
`initVault` is the analogous composition for vaults (no extra signer). -/
theorem broadcast_methods_compose (impl : DripAdminImpl) (input : ProtoConfigInput)
    (params : InitVaultParams) (rt : Runtime)
    (r₁ : TransactionWithMetadata ProtoConfigTxMetadata)
    (r₂ : TransactionWithMetadata VaultTxMetadata)
    (t₁ t₂ : Trace) (h₁ h₂ : String)
    (hb₁ : impl.getInitVaultProtoConfigTx input rt = (.ok r₁, t₁))
    (hs₁ : rt.sendAndConfirm r₁.tx [r₁.metadata.vaultProtoConfigKeypair] = .ok h₁)
    (hb₂ : impl.getInitVaultTx params rt = (.ok r₂, t₂))
    (hs₂ : rt.sendAndConfirm r₂.tx [] = .ok h₂) :
    impl.initVaultProtoConfig input rt =
      (.ok { id := h₁, explorer := makeExplorerUrl h₁ impl.network, metadata := r₁.metadata },
       t₁ ++ [Event.sendAndConfirm r₁.tx [r₁.metadata.vaultProtoConfigKeypair]])
    ∧ impl.initVault params rt =
      (.ok { id := h₂, explorer := makeExplorerUrl h₂ impl.network, metadata := r₂.metadata },
       t₂ ++ [Event.sendAndConfirm r₂.tx []]) := by
  constructor
  · rw [initVaultProtoConfig_run, hb₁]
    simp [hs₁]
  · rw [initVault_run, hb₂]
    simp [hs₂]

/-- Closed instance of C5 at a concrete client, inputs and runtime. -/
theorem broadcast_methods_compose_witness :
    exImpl.initVaultProtoConfig (.params exProtoParams) exRuntimeOk =
      (.ok { id := "sig"
             explorer := makeExplorerUrl "sig" exImpl.network
             metadata := (exImpl.builtProtoConfigTx exProtoParams exKeypair).metadata },
       [Event.keygen exKeypair] ++
         [Event.sendAndConfirm (exImpl.builtProtoConfigTx exProtoParams exKeypair).tx
           [(exImpl.builtProtoConfigTx exProtoParams exKeypair).metadata.vaultProtoConfigKeypair]])
    ∧ exImpl.initVault exVaultParams exRuntimeOk =
      (.ok { id := "sig"
             explorer := makeExplorerUrl "sig" exImpl.network
             metadata := (exImpl.builtInitVaultTx exVaultParams "bh").metadata },
       [Event.fetchVault exVaultAddr, Event.getLatestBlockhash] ++
         [Event.sendAndConfirm (exImpl.builtInitVaultTx exVaultParams "bh").tx []]) :=
  broadcast_methods_compose exImpl (.params exProtoParams) exVaultParams exRuntimeOk
    (exImpl.builtProtoConfigTx exProtoParams exKeypair)
    (exImpl.builtInitVaultTx exVaultParams "bh")
    [Event.keygen exKeypair] [Event.fetchVault exVaultAddr, Event.getLatestBlockhash]
    "sig" "sig" rfl rfl rfl rfl

/-- C6: the `initVaultProtoConfig` instruction built by `getInitVaultProtoConfigTx`
carries the caller's parameters: granularity converted to a `BN` via its decimal
string (and the conversion preserves the value), both spreads passed through
unchanged, and admin converted with `toPubkey`. -/
theorem protoConfig_instruction_assembles_params (impl : DripAdminImpl)
    (input : ProtoConfigInput) (rt : Runtime)
    (res : TransactionWithMetadata ProtoConfigTxMetadata) (tr : Trace)
    (h : impl.getInitVaultProtoConfigTx input rt = (.ok res, tr)) :
    ∃ accs, res.tx.instructions =
      [Instruction.initVaultProtoConfig
        { granularity := BN.ofDecimalDigits (decimalDigits input.toParams.granularity)
          tokenADripTriggerSpread := input.toParams.tokenADripTriggerSpread
          tokenBWithdrawalSpread := input.toParams.tokenBWithdrawalSpread
          admin := toPubkey input.toParams.admin } accs]
    ∧ (BN.ofDecimalDigits (decimalDigits input.toParams.granularity)).val =
        input.toParams.granularity := by
  have hval : ∀ g : Nat, (BN.ofDecimalDigits (decimalDigits g)).val = g := by
    intro g
    simp [BN.ofDecimalDigits, decimalDigits, Nat.ofDigits_digits]
  cases input with
  | preview pv =>
    have hp : impl.getInitVaultProtoConfigTx (.preview pv) rt =
        (.ok (impl.builtProtoConfigTx pv.toInitVaultProtoConfigParams
          pv.vaultProtoConfigKeypair), []) :=
      protoConfigTx_run impl (.preview pv) rt
    rw [hp] at h
    injection h with h1 h2
    injection h1 with h1
    subst h1
    exact ⟨{ vaultProtoConfig := pv.vaultProtoConfigKeypair.publicKey
             creator := impl.provider.walletPublicKey
             systemProgram := SystemProgram.programId }, rfl, hval _⟩
  | params p =>
    have hp : impl.getInitVaultProtoConfigTx (.params p) rt =
        (.ok (impl.builtProtoConfigTx p rt.nextKeypair), [Event.keygen rt.nextKeypair]) :=
      protoConfigTx_run impl (.params p) rt
    rw [hp] at h
    injection h with h1 h2
    injection h1 with h1
    subst h1
    exact ⟨{ vaultProtoConfig := rt.nextKeypair.publicKey
             creator := impl.provider.walletPublicKey
             systemProgram := SystemProgram.programId }, rfl, hval _⟩

/-- Closed instance of C6 at a concrete client, params and runtime. -/
theorem protoConfig_instruction_assembles_params_witness :
    ∃ accs, (exImpl.builtProtoConfigTx exProtoParams exKeypair).tx.instructions =
      [Instruction.initVaultProtoConfig
        { granularity := BN.ofDecimalDigits (decimalDigits 60)
          tokenADripTriggerSpread := 5
          tokenBWithdrawalSpread := 10
          admin := toPubkey (.key ⟨88⟩) } accs]
    ∧ (BN.ofDecimalDigits (decimalDigits 60)).val = 60 :=
  protoConfig_instruction_assembles_params exImpl (.params exProtoParams) exRuntimeOk
    (exImpl.builtProtoConfigTx exProtoParams exKeypair) [Event.keygen exKeypair] rfl

/-- C7: `getInitVaultProtoConfigPreview` returns the input params spread unchanged
(every field preserved, none dropped or overwritten) with exactly one added field,
the freshly generated `vaultProtoConfigKeypair`. -/
theorem preview_preserves_params (impl : DripAdminImpl)
    (params : InitVaultProtoConfigParams) (rt : Runtime) :
    impl.getInitVaultProtoConfigPreview params rt =
      (.ok { toInitVaultProtoConfigParams := params
             vaultProtoConfigKeypair := rt.nextKeypair },
       [Event.keygen rt.nextKeypair])
    ∧ (∀ res tr, impl.getInitVaultProtoConfigPreview params rt = (.ok res, tr) →
        res.toInitVaultProtoConfigParams = params ∧
        res.granularity = params.granularity ∧
        res.tokenADripTriggerSpread = params.tokenADripTriggerSpread ∧
        res.tokenBWithdrawalSpread = params.tokenBWithdrawalSpread ∧
        res.admin = params.admin ∧
        res.vaultProtoConfigKeypair = rt.nextKeypair) := by
  have heq : impl.getInitVaultProtoConfigPreview params rt =
      (.ok { toInitVaultProtoConfigParams := params
             vaultProtoConfigKeypair := rt.nextKeypair },
       [Event.keygen rt.nextKeypair]) := rfl
  refine ⟨heq, ?_⟩
  intro res tr h
  rw [heq] at h
  injection h with h1 h2
  injection h1 with h1
  rw [← h1]
  exact ⟨rfl, rfl, rfl, rfl, rfl, rfl⟩

/-- Closed instance of C7 at a concrete client, params and runtime. -/
theorem preview_preserves_params_witness :
    exPreview.toInitVaultProtoConfigParams = exProtoParams ∧
    exPreview.granularity = exProtoParams.granularity ∧
    exPreview.tokenADripTriggerSpread = exProtoParams.tokenADripTriggerSpread ∧
    exPreview.tokenBWithdrawalSpread = exProtoParams.tokenBWithdrawalSpread ∧
    exPreview.admin = exProtoParams.admin ∧
    exPreview.vaultProtoConfigKeypair = exRuntimeOk.nextKeypair :=
  (preview_preserves_params exImpl exProtoParams exRuntimeOk).2 exPreview
    [Event.keygen exKeypair] rfl

/-- C8: failures from the external runtime propagate to the caller unchanged: an
error raised by the account fetch or by `sendAndConfirm` aborts `getInitVaultTx`,
`initVault` and `initVaultProtoConfig` with that very error value (carried by the
`DripError.rpc` injection of the embedding), no result value is returned, and no
retry or recovery is attempted (at most one broadcast occurs in any run). -/
theorem runtime_errors_propagate (impl : DripAdminImpl) (input : ProtoConfigInput)
    (params : InitVaultParams) (rt : Runtime) :
    (∀ e, rt.fetchVault (findVaultPubkey impl.vaultProgramId params) = .error e →
      impl.getInitVaultTx params rt =
        (.error (.rpc e), [Event.fetchVault (findVaultPubkey impl.vaultProgramId params)]) ∧
      impl.initVault params rt =
        (.error (.rpc e), [Event.fetchVault (findVaultPubkey impl.vaultProgramId params)]))
    ∧ (∀ r t e, impl.getInitVaultTx params rt = (.ok r, t) →
        rt.sendAndConfirm r.tx [] = .error e →
        impl.initVault params rt = (.error (.rpc e), t ++ [Event.sendAndConfirm r.tx []]))
    ∧ (∀ r t e, impl.getInitVaultProtoConfigTx input rt = (.ok r, t) →
        rt.sendAndConfirm r.tx [r.metadata.vaultProtoConfigKeypair] = .error e →
        impl.initVaultProtoConfig input rt =
          (.error (.rpc e),
           t ++ [Event.sendAndConfirm r.tx [r.metadata.vaultProtoConfigKeypair]]))
    ∧ List.countP Event.isSend (impl.initVault params rt).2 ≤ 1
    ∧ List.countP Event.isSend (impl.initVaultProtoConfig input rt).2 ≤ 1 := by
  refine ⟨?_, ?_, ?_, initVault_send_count impl params rt,
    initVaultProtoConfig_send_count impl input rt⟩
  · intro e he
    have hv := getInitVaultTx_fetch_error_eq impl params rt e he
    refine ⟨hv, ?_⟩
    rw [initVault_run, hv]
  · intro r t e hb hs
    rw [initVault_run, hb]
    simp [hs]
  · intro r t e hb hs
    rw [initVaultProtoConfig_run, hb]
    simp [hs]

/-- Closed instance of C8 at a concrete client and failing runtimes. -/
theorem runtime_errors_propagate_witness :
    (exImpl.getInitVaultTx exVaultParams exRuntimeFetchErr =
       (.error (.rpc ⟨"fetch failed"⟩), [Event.fetchVault exVaultAddr]) ∧
     exImpl.initVault exVaultParams exRuntimeFetchErr =
       (.error (.rpc ⟨"fetch failed"⟩), [Event.fetchVault exVaultAddr]))
    ∧ exImpl.initVault exVaultParams exRuntimeSendErr =
       (.error (.rpc ⟨"send failed"⟩),
        [Event.fetchVault exVaultAddr, Event.getLatestBlockhash] ++
          [Event.sendAndConfirm (exImpl.builtInitVaultTx exVaultParams "bh").tx []]) :=
  ⟨(runtime_errors_propagate exImpl (.params exProtoParams) exVaultParams
      exRuntimeFetchErr).1 ⟨"fetch failed"⟩ rfl,
   (runtime_errors_propagate exImpl (.params exProtoParams) exVaultParams
      exRuntimeSendErr).2.1
     (exImpl.builtInitVaultTx exVaultParams "bh")
     [Event.fetchVault exVaultAddr, Event.getLatestBlockhash] ⟨"send failed"⟩ rfl rfl⟩

/-- C9: when the vault does not yet exist, the transaction returned by
`getInitVaultTx` contains exactly two instructions in this order: first `initVault`,
then `initVaultPeriod` for the genesis period whose `periodId` is `ZERO` (period 0)
at the derived vault-period address, with the provider wallet as fee payer. -/
theorem getInitVaultTx_two_instructions (impl : DripAdminImpl)
    (params : InitVaultParams) (rt : Runtime)
    (res : TransactionWithMetadata VaultTxMetadata) (tr : Trace)
    (h : impl.getInitVaultTx params rt = (.ok res, tr)) :
    res.tx.instructions = [impl.initVaultIx params, impl.initVaultPeriodIx params]
    ∧ (∃ args accs, impl.initVaultIx params = Instruction.initVault args accs)
    ∧ (∃ pAccs, impl.initVaultPeriodIx params =
        Instruction.initVaultPeriod { periodId := ZERO } pAccs ∧
        pAccs.vaultPeriod = findVaultPeriodPubkey impl.vaultProgramId
          { vault := findVaultPubkey impl.vaultProgramId params, periodId := ZERO } ∧
        pAccs.vault = findVaultPubkey impl.vaultProgramId params)
    ∧ res.tx.feePayer = some impl.provider.walletPublicKey
    ∧ ZERO.val = 0 := by
  rcases (getInitVaultTx_ok_iff impl params rt res tr).1 h with ⟨bh, -, -, hres, -⟩
  subst hres
  exact ⟨rfl, ⟨_, _, rfl⟩, ⟨_, rfl, rfl, rfl⟩, rfl, rfl⟩

/-- Closed instance of C9 at a concrete client, params and runtime. -/
theorem getInitVaultTx_two_instructions_witness :
    (exImpl.builtInitVaultTx exVaultParams "bh").tx.instructions =
      [exImpl.initVaultIx exVaultParams, exImpl.initVaultPeriodIx exVaultParams]
    ∧ (∃ args accs, exImpl.initVaultIx exVaultParams = Instruction.initVault args accs)
    ∧ (∃ pAccs, exImpl.initVaultPeriodIx exVaultParams =
        Instruction.initVaultPeriod { periodId := ZERO } pAccs ∧
        pAccs.vaultPeriod = findVaultPeriodPubkey exImpl.vaultProgramId
          { vault := exVaultAddr, periodId := ZERO } ∧
        pAccs.vault = exVaultAddr)
    ∧ (exImpl.builtInitVaultTx exVaultParams "bh").tx.feePayer =
        some exImpl.provider.walletPublicKey
    ∧ ZERO.val = 0 :=
  getInitVaultTx_two_instructions exImpl exVaultParams exRuntimeOk
    (exImpl.builtInitVaultTx exVaultParams "bh")
    [Event.fetchVault exVaultAddr, Event.getLatestBlockhash] rfl

/-- C10: the Mainnet entry of `Configs` is a placeholder: its `vaultProgramId` is
`PublicKey.default` (the all-zero key) and its `tokens`, `vaultProtoConfigs` and
`vaults` records are all empty, so a `DripAdminImpl` constructed for
`Network.Mainnet` targets the default program id; the Devnet entry carries a
configuration with a non-default program id. -/
theorem mainnet_config_placeholder :
    (Configs .Mainnet).vaultProgramId = PublicKey.default
    ∧ (Configs .Mainnet).tokens = []
    ∧ (Configs .Mainnet).vaultProtoConfigs = []
    ∧ (Configs .Mainnet).vaults = []
    ∧ (∀ provider,
        (DripAdminImpl.make provider .Mainnet).vaultProgramId = PublicKey.default)
    ∧ (Configs .Devnet).vaultProgramId ≠ PublicKey.default := by
  refine ⟨rfl, rfl, rfl, rfl, fun _ => rfl, ?_⟩
  decide

/-- Closed instance of C10 at a concrete provider. -/
theorem mainnet_config_placeholder_witness :
    (DripAdminImpl.make exProvider .Mainnet).vaultProgramId = PublicKey.default :=
  mainnet_config_placeholder.2.2.2.2.1 exProvider
